import Mathlib

/-!
Shallow embedding of the data-transformation core of the EURO2024 dashboard
(src/streamlit_app.py): event normalization (location-pair extraction),
the event filter predicates, count aggregation with pandas-style groupby,
the scipy mean-percentile ranking used by the report cards, the passing
network node computation, and the event-fetch concatenation.

Tabular data is modelled as Lean lists of records; pandas boolean-mask
filtering is `List.filter`; pandas comparisons against a null (NaN) value
evaluate to `false`, which the `optLt` / `optGt` helpers make explicit.
-/

/-- A normalized event row, carrying exactly the columns the verified
views consult.  Nullable columns (pandas NaN) are `Option`-valued; the
derived coordinate columns `x` / `pass_end_x` are null when the source
location field was absent. -/
structure Event where
  match_id : Nat := 0
  team : String := ""
  player : Option String := none
  position : Option String := none
  type : String := ""
  pass_outcome : Option String := none
  shot_outcome : Option String := none
  pass_recipient : Option String := none
  x : Option ℚ := none
  pass_end_x : Option ℚ := none
deriving DecidableEq

/-- Shape of one raw location-like field (`location`, `pass_end_location`,
`carry_end_location`) of an event record before normalization: a Python
list of numbers, a non-list scalar (e.g. a float NaN), or missing. -/
inductive LocField where
  | missing : LocField
  | scalar : ℚ → LocField
  | list : List ℚ → LocField
deriving DecidableEq

/-- Per-row coordinate extraction of the per-match path
(src/streamlit_app.py lines 138-146):
`events['location'].apply(lambda loc: pd.Series(loc if isinstance(loc, list) else [None, None]))`.
A Python list is turned into a row of the resulting frame positionally
(pandas pads a too-short row with NaN when the frame is two columns wide);
any non-list value is replaced by `[None, None]`. -/
def extractCoords (loc : LocField) : Option ℚ × Option ℚ :=
  match loc with
  | .list xs => (xs[0]?, xs[1]?)
  | _ => (none, none)

/-- Per-row coordinate extraction of the full-competition path
(src/streamlit_app.py lines 65-67): `comp_events['location'].apply(pd.Series)`.
`pd.Series` of a list is the list positionally; `pd.Series` of a scalar is a
one-element row (so the second column is NaN-filled); a missing value (float
NaN) yields a NaN row, i.e. both columns null. -/
def extractCoordsFull (loc : LocField) : Option ℚ × Option ℚ :=
  match loc with
  | .missing => (none, none)
  | .scalar v => (some v, none)
  | .list xs => (xs[0]?, xs[1]?)

/-- Well-formed location input per the data model: a 2-element numeric
sequence or missing/null. -/
def WellFormedLoc (loc : LocField) : Prop :=
  loc = .missing ∨ ∃ a b, loc = .list [a, b]

/-- Pandas comparison `col < c` where `col` may be null: NaN compares false. -/
def optLt (a : Option ℚ) (c : ℚ) : Bool :=
  match a with
  | none => false
  | some v => decide (v < c)

/-- Pandas comparison `col > c` where `col` may be null: NaN compares false. -/
def optGt (a : Option ℚ) (c : ℚ) : Bool :=
  match a with
  | none => false
  | some v => decide (c < v)

/-- The progression-into-final-third pass filter of `plot_progressions`
(src/streamlit_app.py lines 293-299), also used verbatim by the
Progressions Map branch of `main` (lines 160-166):
team, type "Pass", x < 80, pass_end_x > 80, pass_outcome null. -/
def progressionPassEvents (events : List Event) (team : String) : List Event :=
  events.filter (fun e =>
    e.team == team && e.type == "Pass" && optLt e.x 80 &&
      optGt e.pass_end_x 80 && e.pass_outcome == none)

/-- Modelled from scipy.stats.percentileofscore with kind given as mean
(an external collaborator of the source): the mean of the strict
percentile (fraction of the population strictly below the score) and the
weak percentile (fraction at or below the score), times 100. -/
def percentileofscore_mean (a : List ℚ) (score : ℚ) : ℚ :=
  ((a.countP (fun v => decide (v < score)) : ℚ)
      + (a.countP (fun v => decide (v ≤ score)) : ℚ)) / (a.length : ℚ) * 50

/-- Modelled from the spec's words (section 4.3), for comparison with the
source-derived computation: percentile = (fraction of population strictly
below + 0.5 × fraction exactly equal) × 100. -/
def meanPercentileRank (pop : List ℚ) (score : ℚ) : ℚ :=
  ((pop.countP (fun v => decide (v < score)) : ℚ) / (pop.length : ℚ)
      + (1 / 2) * ((pop.countP (fun v => decide (v = score)) : ℚ) / (pop.length : ℚ))) * 100

/-- Distinct elements of a list in order of first appearance (the key set
of a pandas hash-based grouping), accumulating the keys already seen. -/
def firstOccAux (seen : List String) : List String → List String
  | [] => []
  | x :: xs => if x ∈ seen then firstOccAux seen xs else x :: firstOccAux (x :: seen) xs

/-- Distinct elements of a list in order of first appearance. -/
def firstOcc (xs : List String) : List String := firstOccAux [] xs

/-- Lexicographic order on character lists by Unicode code point. -/
def charListLe : List Char → List Char → Bool
  | [], _ => true
  | _ :: _, [] => false
  | a :: as, b :: bs =>
    if a.toNat < b.toNat then true
    else if b.toNat < a.toNat then false
    else charListLe as bs

/-- Code-point lexicographic string order (how pandas sorts str keys). -/
def strLe (a b : String) : Bool := charListLe a.data b.data

/-- Grouped rows ordered by their key ascending. -/
def keyLe (a b : String × ℕ) : Prop := strLe a.1 b.1 = true

instance : DecidableRel keyLe := fun a b => inferInstanceAs (Decidable (strLe a.1 b.1 = true))

/-- Pandas `df.groupby('player').size().reset_index(name='count')`: one
(player, group size) row per distinct non-null player value, with the keys
sorted ascending (groupby sorts its keys by default). -/
def groupCountsByPlayer (rows : List Event) : List (String × ℕ) :=
  ((firstOcc (rows.filterMap (fun e => e.player))).map
      (fun k => (k, (rows.filter (fun e => e.player == some k)).length))).insertionSort keyLe

/-- Goalkeeper reference population: rows of the full-competition frame
whose position is exactly "Goalkeeper" (src/streamlit_app.py line 594);
a null position is not a match. -/
def fullGks (full : List Event) : List Event :=
  full.filter (fun e => e.position == some "Goalkeeper")

/-- The selected goalkeeper's rows, filtered by player name only
(src/streamlit_app.py line 597). -/
def gkSelectedEvents (full : List Event) (name : String) : List Event :=
  full.filter (fun e => e.player == some name)

/-- The selected goalkeeper's raw count for a metric: rows of the
player-filtered frame with the metric as type (line 602). -/
def gkSelectedCount (full : List Event) (name metric : String) : ℕ :=
  ((gkSelectedEvents full name).filter (fun e => e.type == metric)).length

/-- `gk_counts_df` (line 605): per-player sizes of the goalkeeper
population's rows of the given type. -/
def gkPopulationFrame (full : List Event) (metric : String) : List (String × ℕ) :=
  groupCountsByPlayer ((fullGks full).filter (fun e => e.type == metric))

/-- The `count` column of `gk_counts_df`, as rationals for ranking. -/
def gkPopulationCounts (full : List Event) (metric : String) : List ℚ :=
  (gkPopulationFrame full metric).map (fun r => (r.2 : ℚ))

/-- The goalkeeper report-card percentile (lines 607-610): 0 when the
population frame is empty, otherwise percentileofscore of the selected
count against the population counts. -/
def gkReportPercentile (full : List Event) (name metric : String) : ℚ :=
  if gkPopulationFrame full metric = [] then 0
  else percentileofscore_mean (gkPopulationCounts full metric)
    ((gkSelectedCount full name metric : ℚ))

/-- Defender positions (src/streamlit_app.py lines 688-694). -/
def defenderPositions : List String :=
  ["Center Back", "Left Center Back", "Right Center Back", "Left Wing Back", "Right Wing Back"]

/-- Pandas `position.isin(ps)` on a nullable column: null is never in. -/
def positionIn (e : Event) (ps : List String) : Bool :=
  match e.position with
  | none => false
  | some p => ps.contains p

/-- Defender reference population (line 697). -/
def fullDefenders (full : List Event) : List Event :=
  full.filter (fun e => positionIn e defenderPositions)

/-- The selected defender's rows, filtered by player name only (line 700). -/
def defenderSelectedEvents (full : List Event) (name : String) : List Event :=
  full.filter (fun e => e.player == some name)

/-- The selected defender's raw count for a metric (line 706). -/
def defenderSelectedCount (full : List Event) (name metric : String) : ℕ :=
  ((defenderSelectedEvents full name).filter (fun e => e.type == metric)).length

/-- `defender_counts_df` (lines 709-710). -/
def defenderPopulationFrame (full : List Event) (metric : String) : List (String × ℕ) :=
  groupCountsByPlayer ((fullDefenders full).filter (fun e => e.type == metric))

/-- The `count` column of `defender_counts_df`. -/
def defenderPopulationCounts (full : List Event) (metric : String) : List ℚ :=
  (defenderPopulationFrame full metric).map (fun r => (r.2 : ℚ))

/-- The defender report-card percentile (lines 712-716). -/
def defenderReportPercentile (full : List Event) (name metric : String) : ℚ :=
  if defenderPopulationFrame full metric = [] then 0
  else percentileofscore_mean (defenderPopulationCounts full metric)
    ((defenderSelectedCount full name metric : ℚ))

/-- Forward positions (src/streamlit_app.py line 864). -/
def forwardPositions : List String :=
  ["Center Forward", "Left Center Forward", "Right Center Forward"]

/-- Forward reference population (line 867). -/
def fullForwards (full : List Event) : List Event :=
  full.filter (fun e => positionIn e forwardPositions)

/-- The selected forward's rows, filtered by player name only (line 870). -/
def forwardSelectedEvents (full : List Event) (name : String) : List Event :=
  full.filter (fun e => e.player == some name)

/-- The selected forward's raw count for a metric (lines 874-885): the
derived "Goal" metric counts Shot events whose shot_outcome is "Goal";
every other metric counts events of that type. -/
def forwardSelectedCount (full : List Event) (name metric : String) : ℕ :=
  if metric = "Goal" then
    ((forwardSelectedEvents full name).filter
      (fun e => e.type == "Shot" && e.shot_outcome == some "Goal")).length
  else
    ((forwardSelectedEvents full name).filter (fun e => e.type == metric)).length

/-- `forward_counts_df` (lines 880-887), with the "Goal" special case. -/
def forwardPopulationFrame (full : List Event) (metric : String) : List (String × ℕ) :=
  if metric = "Goal" then
    groupCountsByPlayer ((fullForwards full).filter
      (fun e => e.type == "Shot" && e.shot_outcome == some "Goal"))
  else
    groupCountsByPlayer ((fullForwards full).filter (fun e => e.type == metric))

/-- The `count` column of `forward_counts_df`. -/
def forwardPopulationCounts (full : List Event) (metric : String) : List ℚ :=
  (forwardPopulationFrame full metric).map (fun r => (r.2 : ℚ))

/-- The forward report-card percentile (lines 889-892). -/
def forwardReportPercentile (full : List Event) (name metric : String) : ℚ :=
  if forwardPopulationFrame full metric = [] then 0
  else percentileofscore_mean (forwardPopulationCounts full metric)
    ((forwardSelectedCount full name metric : ℚ))

/-- Rewrites a frame's position column (pointwise), leaving every other
column untouched; used to state that a computation never reads positions. -/
def mapPositions (f : Event → Option String) (full : List Event) : List Event :=
  full.map (fun e => { e with position := f e })

/-- `team_passes` of `plot_team_passing_network` (lines 919-923): the
team's completed passes (null pass_outcome). -/
def teamCompletedPasses (events : List Event) (team : String) : List Event :=
  events.filter (fun e => e.team == team && e.type == "Pass" && e.pass_outcome == none)

/-- `players_series` (line 926): the passer column concatenated with the
recipient column; `value_counts` drops the null entries. -/
def involvementSeries (events : List Event) (team : String) : List String :=
  ((teamCompletedPasses events team).map (fun e => e.player)
      ++ (teamCompletedPasses events team).map (fun e => e.pass_recipient)).filterMap id

/-- Ordering used by value_counts: count descending. -/
def countGe (a b : String × ℕ) : Prop := b.2 ≤ a.2

instance : DecidableRel countGe := fun a b => inferInstanceAs (Decidable (b.2 ≤ a.2))

instance : IsTotal (String × ℕ) countGe := ⟨fun a b => Nat.le_total b.2 a.2⟩

instance : IsTrans (String × ℕ) countGe := ⟨fun _ _ _ h1 h2 => Nat.le_trans h2 h1⟩

/-- `players_counts = players_series.value_counts()` (line 927): one
(player, occurrence count) pair per distinct player, sorted by count
descending.  The source's tie order among equal counts is
implementation-defined (pandas does not document it); this embedding
concretizes it as a stable sort over first-appearance key order. -/
def involvementPairs (events : List Event) (team : String) : List (String × ℕ) :=
  ((firstOcc (involvementSeries events team)).map
      (fun k => (k, (involvementSeries events team).count k))).insertionSort countGe

/-- A player's total involvement count (passer or recipient occurrences). -/
def involvementCount (events : List Event) (team : String) (p : String) : ℕ :=
  (involvementSeries events team).count p

/-- `starting_eleven = players_counts.head(11).index.tolist()` (line 930). -/
def startingEleven (events : List Event) (team : String) : List String :=
  ((involvementPairs events team).take 11).map Prod.fst

/-- One row of `team_passes` as consumed by the node computation of
`plot_team_passing_network` (lines 948-972); completed passes carry both
endpoint coordinates in the source data, so the coordinate columns are
plain rationals here. -/
structure NetPass where
  player : Option String := none
  pass_recipient : Option String := none
  x : ℚ := 0
  y : ℚ := 0
  pass_end_x : ℚ := 0
  pass_end_y : ℚ := 0
deriving DecidableEq

/-- `passer_locs` (line 952): rows where the player is the passer. -/
def passerRows (team_passes : List NetPass) (p : String) : List NetPass :=
  team_passes.filter (fun e => e.player == some p)

/-- `receiver_locs` (line 954): rows where the player is the recipient. -/
def receiverRows (team_passes : List NetPass) (p : String) : List NetPass :=
  team_passes.filter (fun e => e.pass_recipient == some p)

/-- Arithmetic mean of a list of rationals (np.mean / pandas mean over a
column with no nulls). -/
def mean (xs : List ℚ) : ℚ := xs.sum / (xs.length : ℚ)

/-- The node position of a player (lines 955-965): mean of the
concatenation of pass-origin and received-pass-end coordinates when both
sides have rows, the mean of the one existing side otherwise, and (0,0)
when neither side has rows. -/
def nodePosition (team_passes : List NetPass) (p : String) : ℚ × ℚ :=
  if passerRows team_passes p ≠ [] ∧ receiverRows team_passes p ≠ [] then
    (mean ((passerRows team_passes p).map NetPass.x
        ++ (receiverRows team_passes p).map NetPass.pass_end_x),
     mean ((passerRows team_passes p).map NetPass.y
        ++ (receiverRows team_passes p).map NetPass.pass_end_y))
  else if passerRows team_passes p ≠ [] then
    (mean ((passerRows team_passes p).map NetPass.x),
     mean ((passerRows team_passes p).map NetPass.y))
  else if receiverRows team_passes p ≠ [] then
    (mean ((receiverRows team_passes p).map NetPass.pass_end_x),
     mean ((receiverRows team_passes p).map NetPass.pass_end_y))
  else (0, 0)

/-- `team_shots` of `plot_team_shot_map` (line 470). -/
def teamShots (events : List Event) (team : String) : List Event :=
  events.filter (fun e => e.team == team && e.type == "Shot")

/-- `goal_shots` (line 481): shot_outcome equals "Goal" (null is no match). -/
def goalShots (team_shots : List Event) : List Event :=
  team_shots.filter (fun e => e.shot_outcome == some "Goal")

/-- `non_goal_shots` (line 482): pandas `!=` is true on null, so this is
the exact complement of the goal predicate. -/
def nonGoalShots (team_shots : List Event) : List Event :=
  team_shots.filter (fun e => !(e.shot_outcome == some "Goal"))

/-- A fetched table: a column schema plus rows (cell values as strings;
only emptiness and the schema matter to the verified claims). -/
structure Frame where
  columns : List String := []
  rows : List (List String) := []
deriving DecidableEq

/-- `pd.concat(frames, ignore_index=True)`: columns are the union in
first-appearance order, rows are appended. -/
def concatFrames (fs : List Frame) : Frame :=
  { columns := firstOcc ((fs.map Frame.columns).flatten)
    rows := (fs.map Frame.rows).flatten }

/-- `load_events_for_matches` (src/streamlit_app.py lines 42-52): fetch
per match id, concatenate if any frame was fetched, and otherwise return
`pd.DataFrame()` — a frame with no columns and no rows.  The upstream
`sb.events` call is abstracted as the `fetch` argument. -/
def load_events_for_matches (fetch : ℕ → Frame) (match_ids : List ℕ) : Frame :=
  let events_list := match_ids.map fetch
  if events_list ≠ [] then concatFrames events_list
  else { columns := [], rows := [] }

/-- Modelled from the spec: a stand-in upstream `sb.events` collaborator
whose result frames carry the event schema of section 3 (the concrete
column list is illustrative; only that it is non-empty and fixed matters). -/
def fetchExample (m : ℕ) : Frame :=
  { columns := ["match_id", "team", "player", "position", "type", "location"]
    rows := [[toString m, "Spain", "P", "Goalkeeper", "Pass", "loc"]] }

/-- Concrete tournament frame realizing the spec's percentile example:
goalkeepers g1..g5 with 1..5 Pass events (population counts [1,2,3,4,5],
the selected g5 count being 5), plus one defender Duel row so the
defender-side population is inhabited too. -/
def percentileExampleEvents : List Event :=
  [{ team := "T", player := some "g1", position := some "Goalkeeper", type := "Pass" },
   { team := "T", player := some "g2", position := some "Goalkeeper", type := "Pass" },
   { team := "T", player := some "g2", position := some "Goalkeeper", type := "Pass" },
   { team := "T", player := some "g3", position := some "Goalkeeper", type := "Pass" },
   { team := "T", player := some "g3", position := some "Goalkeeper", type := "Pass" },
   { team := "T", player := some "g3", position := some "Goalkeeper", type := "Pass" },
   { team := "T", player := some "g4", position := some "Goalkeeper", type := "Pass" },
   { team := "T", player := some "g4", position := some "Goalkeeper", type := "Pass" },
   { team := "T", player := some "g4", position := some "Goalkeeper", type := "Pass" },
   { team := "T", player := some "g4", position := some "Goalkeeper", type := "Pass" },
   { team := "T", player := some "g5", position := some "Goalkeeper", type := "Pass" },
   { team := "T", player := some "g5", position := some "Goalkeeper", type := "Pass" },
   { team := "T", player := some "g5", position := some "Goalkeeper", type := "Pass" },
   { team := "T", player := some "g5", position := some "Goalkeeper", type := "Pass" },
   { team := "T", player := some "g5", position := some "Goalkeeper", type := "Pass" },
   { team := "T", player := some "d1", position := some "Center Back", type := "Duel" }]

/-- Concrete frame whose only row is by a forward-positioned player, so
both the goalkeeper population (for any metric) and the forward Shot
population are empty. -/
def emptyPopExampleEvents : List Event :=
  [{ team := "T", player := some "A", position := some "Center Forward", type := "Pass" }]

/-- A Pass event that spatially qualifies for the progression filter but
carries a present, non-null pass_outcome. -/
def incompletePassExample : Event :=
  { team := "A", player := some "P", type := "Pass", x := some 70, pass_end_x := some 85,
    pass_outcome := some "Incomplete" }

/-- A completed Pass event whose start coordinate is null. -/
def nullXPassExample : Event :=
  { team := "A", player := some "P", type := "Pass", x := none, pass_end_x := some 85 }

/-- A player with tournament events in two positions: "A" has one Pass as
a goalkeeper and one as a centre back, while goalkeeper "B" has one Pass. -/
def crossPositionExample : List Event :=
  [{ team := "T", player := some "A", position := some "Goalkeeper", type := "Pass" },
   { team := "T", player := some "A", position := some "Center Back", type := "Pass" },
   { team := "T", player := some "B", position := some "Goalkeeper", type := "Pass" }]

/-- Two completed passes making "A" both a passer and a recipient. -/
def netPassExample : List NetPass :=
  [{ player := some "A", pass_recipient := some "B", x := 10, y := 20,
     pass_end_x := 30, pass_end_y := 40 },
   { player := some "B", pass_recipient := some "A", x := 50, y := 60,
     pass_end_x := 70, pass_end_y := 80 }]

/-- Six completed passes involving twelve distinct players once each. -/
def startingElevenExample : List Event :=
  [{ team := "T", type := "Pass", player := some "p01", pass_recipient := some "p02" },
   { team := "T", type := "Pass", player := some "p03", pass_recipient := some "p04" },
   { team := "T", type := "Pass", player := some "p05", pass_recipient := some "p06" },
   { team := "T", type := "Pass", player := some "p07", pass_recipient := some "p08" },
   { team := "T", type := "Pass", player := some "p09", pass_recipient := some "p10" },
   { team := "T", type := "Pass", player := some "p11", pass_recipient := some "p12" }]

/-- A single completed team pass from "A" to "B". -/
def singlePassAB : List Event :=
  [{ team := "T", type := "Pass", player := some "A", pass_recipient := some "B" }]

/-- A single completed team pass from "C" to "D": the same multiset of
involvement counts as `singlePassAB`, carried by different players. -/
def singlePassCD : List Event :=
  [{ team := "T", type := "Pass", player := some "C", pass_recipient := some "D" }]

/-! Helper lemmas. -/

theorem optLt_iff (a : Option ℚ) (c : ℚ) : optLt a c = true ↔ ∃ v, a = some v ∧ v < c := by
  cases a <;> simp [optLt]

theorem optGt_iff (a : Option ℚ) (c : ℚ) : optGt a c = true ↔ ∃ v, a = some v ∧ c < v := by
  cases a <;> simp [optGt]

theorem countP_le_split (s : ℚ) (l : List ℚ) :
    l.countP (fun v => decide (v ≤ s)) =
      l.countP (fun v => decide (v < s)) + l.countP (fun v => decide (v = s)) := by
  induction l with
  | nil => rfl
  | cons a t ih =>
    simp only [List.countP_cons, ih]
    rcases lt_trichotomy a s with h | h | h
    · simp [h, le_of_lt h, ne_of_lt h]
      omega
    · subst h
      simp
      omega
    · simp [not_le.mpr h, not_lt.mpr (le_of_lt h), ne_of_gt h]

theorem percentileofscore_mean_eq_meanPercentileRank (pop : List ℚ) (s : ℚ) (h : pop ≠ []) :
    percentileofscore_mean pop s = meanPercentileRank pop s := by
  have hn0 : pop.length ≠ 0 := by
    simpa [List.length_eq_zero] using h
  have hn : (pop.length : ℚ) ≠ 0 := by
    exact_mod_cast hn0
  unfold percentileofscore_mean meanPercentileRank
  rw [countP_le_split]
  push_cast
  field_simp
  ring

/-! Claim theorems. -/

/-- C2: the progression-into-final-third pass filter returns exactly the
rows with the given team, type "Pass", a present x strictly below 80, a
present pass_end_x strictly above 80, and a null pass_outcome; a Pass with
a non-null pass_outcome is excluded even when it spatially qualifies, and
a null coordinate never counts as a match. -/
theorem progression_pass_filter_exact :
    (∀ (events : List Event) (team : String) (e : Event),
        e ∈ progressionPassEvents events team ↔
          e ∈ events ∧ e.team = team ∧ e.type = "Pass" ∧
            (∃ v, e.x = some v ∧ v < 80) ∧
            (∃ w, e.pass_end_x = some w ∧ 80 < w) ∧ e.pass_outcome = none) ∧
    incompletePassExample ∉ progressionPassEvents [incompletePassExample] "A" ∧
    nullXPassExample ∉ progressionPassEvents [nullXPassExample] "A" := by
  refine ⟨?_, by decide, by decide⟩
  intro events team e
  simp only [progressionPassEvents, List.mem_filter, Bool.and_eq_true, beq_iff_eq,
    optLt_iff, optGt_iff]
  tauto

/-- C3 counterexample: a wrong-arity (one-element) location list does not
normalize to a pair of nulls; it yields a partial pair, with x set to the
single element and y null. -/
theorem extract_coords_wrong_arity_partial :
    extractCoords (LocField.list [(5 : ℚ)]) = (some 5, none) ∧
      extractCoords (LocField.list [(5 : ℚ)]) ≠ (none, none) := by
  exact ⟨rfl, by decide⟩

/-- C3 (amended): coordinate extraction branches on being a Python list,
not on arity: a non-list value (missing, null scalar) yields two nulls; a
list is consumed positionally, so a 2-element list yields its two numbers
while a 1-element list yields a partial pair. -/
theorem extract_coords_by_shape :
    extractCoords LocField.missing = (none, none) ∧
    (∀ v : ℚ, extractCoords (LocField.scalar v) = (none, none)) ∧
    (∀ a b : ℚ, extractCoords (LocField.list [a, b]) = (some a, some b)) ∧
    (∀ xs : List ℚ, extractCoords (LocField.list xs) = (xs[0]?, xs[1]?)) :=
  ⟨rfl, fun _ => rfl, fun _ _ => rfl, fun _ => rfl⟩

/-- C4: when a metric's reference population frame is empty, the report
percentile is exactly 0 for every selected player, in the goalkeeper and
forward report cards alike. -/
theorem empty_population_percentile_zero (full : List Event) (name metric : String) :
    (gkPopulationFrame full metric = [] → gkReportPercentile full name metric = 0) ∧
    (forwardPopulationFrame full metric = [] → forwardReportPercentile full name metric = 0) := by
  constructor
  · intro h
    simp [gkReportPercentile, h]
  · intro h
    simp [forwardReportPercentile, h]

/-- C4 witness: a frame with a single forward Pass row has an empty
goalkeeper population for "Pass" and an empty forward population for
"Shot", and both percentiles evaluate to 0. -/
theorem empty_population_percentile_zero_witness :
    gkPopulationFrame emptyPopExampleEvents "Pass" = [] ∧
    gkReportPercentile emptyPopExampleEvents "A" "Pass" = 0 ∧
    forwardPopulationFrame emptyPopExampleEvents "Shot" = [] ∧
    forwardReportPercentile emptyPopExampleEvents "A" "Shot" = 0 :=
  ⟨by decide,
   (empty_population_percentile_zero emptyPopExampleEvents "A" "Pass").1 (by decide),
   by decide,
   (empty_population_percentile_zero emptyPopExampleEvents "A" "Shot").2 (by decide)⟩

/-- C6: a passing-network node is the mean of the concatenation of the
player's pass-origin coordinates and received-pass-end coordinates when
both sides have rows, the mean of the one existing side when only one
does, and exactly (0,0) when neither does. -/
theorem node_position_cases (team_passes : List NetPass) (p : String) :
    (passerRows team_passes p ≠ [] → receiverRows team_passes p ≠ [] →
      nodePosition team_passes p =
        (mean ((passerRows team_passes p).map NetPass.x
            ++ (receiverRows team_passes p).map NetPass.pass_end_x),
         mean ((passerRows team_passes p).map NetPass.y
            ++ (receiverRows team_passes p).map NetPass.pass_end_y))) ∧
    (passerRows team_passes p ≠ [] → receiverRows team_passes p = [] →
      nodePosition team_passes p =
        (mean ((passerRows team_passes p).map NetPass.x),
         mean ((passerRows team_passes p).map NetPass.y))) ∧
    (passerRows team_passes p = [] → receiverRows team_passes p ≠ [] →
      nodePosition team_passes p =
        (mean ((receiverRows team_passes p).map NetPass.pass_end_x),
         mean ((receiverRows team_passes p).map NetPass.pass_end_y))) ∧
    (passerRows team_passes p = [] → receiverRows team_passes p = [] →
      nodePosition team_passes p = (0, 0)) := by
  refine ⟨fun h1 h2 => ?_, fun h1 h2 => ?_, fun h1 h2 => ?_, fun h1 h2 => ?_⟩ <;>
    simp [nodePosition, h1, h2]

/-- C6 witness: with one pass from "A" and one received by "A", the node
for "A" is the mean over the concatenated origin and end coordinates. -/
theorem node_position_cases_witness :
    passerRows netPassExample "A" ≠ [] ∧ receiverRows netPassExample "A" ≠ [] ∧
      nodePosition netPassExample "A" =
        (mean ((passerRows netPassExample "A").map NetPass.x
            ++ (receiverRows netPassExample "A").map NetPass.pass_end_x),
         mean ((passerRows netPassExample "A").map NetPass.y
            ++ (receiverRows netPassExample "A").map NetPass.pass_end_y)) :=
  ⟨by decide, by decide,
   (node_position_cases netPassExample "A").1 (by decide) (by decide)⟩

/-- C7: filters are pure: splitting a list on any predicate and its
negation is a permutation of the input (no row lost or duplicated),
filtering twice equals filtering once, the shot-map team filter returns a
sublist of the untouched input and is idempotent, and goal shots plus
non-goal shots are a permutation of all team shots. -/
theorem filter_engine_pure :
    (∀ (p : Event → Bool) (l : List Event),
        List.Perm (l.filter p ++ l.filter (fun e => !p e)) l) ∧
    (∀ (p : Event → Bool) (l : List Event), (l.filter p).filter p = l.filter p) ∧
    (∀ (events : List Event) (team : String), List.Sublist (teamShots events team) events) ∧
    (∀ (events : List Event) (team : String),
        teamShots (teamShots events team) team = teamShots events team) ∧
    (∀ (events : List Event) (team : String),
        List.Perm (goalShots (teamShots events team) ++ nonGoalShots (teamShots events team))
          (teamShots events team)) :=
  ⟨fun p l => List.filter_append_perm p l,
   fun p l => List.filter_eq_self.mpr (fun _ ha => (List.mem_filter.mp ha).2),
   fun _ _ => List.filter_sublist _,
   fun events team => by
     unfold teamShots
     rw [List.filter_eq_self]
     intro a ha
     exact (List.mem_filter.mp ha).2,
   fun events team => by
     unfold goalShots nonGoalShots
     exact List.filter_append_perm _ _⟩

/-- C8 counterexample: fetching with an empty match-id set returns
`pd.DataFrame()`, whose column schema is empty and therefore differs from
the schema of a non-empty fetch from the same collaborator. -/
theorem empty_fetch_schema_differs :
    (load_events_for_matches fetchExample []).columns = [] ∧
    (load_events_for_matches fetchExample [1]).columns =
      ["match_id", "team", "player", "position", "type", "location"] ∧
    (load_events_for_matches fetchExample []).columns ≠
      (load_events_for_matches fetchExample [1]).columns := by
  refine ⟨rfl, by decide, by decide⟩

/-- C8 (amended): fetching events for an empty match-id set does not fail
and returns the empty frame with no columns and no rows — distinguishable
as an empty result, but not carrying the event column schema. -/
theorem empty_fetch_returns_empty_frame (fetch : ℕ → Frame) :
    load_events_for_matches fetch [] = { columns := [], rows := [] } := rfl

/-- C10: on well-formed location input (a 2-element list or missing), the
full-competition coordinate extraction computes the same derived column
pair as the per-match extraction. -/
theorem full_path_refines_per_match_path (loc : LocField) (h : WellFormedLoc loc) :
    extractCoordsFull loc = extractCoords loc := by
  rcases h with h | ⟨a, b, h⟩ <;> subst h <;> rfl

/-- C10 witness: the two paths agree on the well-formed pair [3, 4]. -/
theorem full_path_refines_per_match_path_witness :
    WellFormedLoc (LocField.list [3, 4]) ∧
      extractCoordsFull (LocField.list [3, 4]) = extractCoords (LocField.list [3, 4]) :=
  ⟨Or.inr ⟨3, 4, rfl⟩, full_path_refines_per_match_path _ (Or.inr ⟨3, 4, rfl⟩)⟩

/-- C1: with a non-empty reference population, the report-card percentile
(goalkeeper and defender cards cited by the claim) equals the
mean-percentile-rank of the selected player's raw count against the
population's per-player counts, and on population counts [1,2,3,4,5] with
target count 5 the result is exactly 90. -/
theorem report_percentile_is_mean_rank (full : List Event) (name metric : String) :
    (gkPopulationFrame full metric ≠ [] →
      gkReportPercentile full name metric =
        meanPercentileRank (gkPopulationCounts full metric)
          ((gkSelectedCount full name metric : ℚ))) ∧
    (defenderPopulationFrame full metric ≠ [] →
      defenderReportPercentile full name metric =
        meanPercentileRank (defenderPopulationCounts full metric)
          ((defenderSelectedCount full name metric : ℚ))) ∧
    gkPopulationCounts percentileExampleEvents "Pass" = [1, 2, 3, 4, 5] ∧
    gkReportPercentile percentileExampleEvents "g5" "Pass" = 90 := by
  have hframe : gkPopulationFrame percentileExampleEvents "Pass" =
      [("g1", 1), ("g2", 2), ("g3", 3), ("g4", 4), ("g5", 5)] := by decide
  have hsel : gkSelectedCount percentileExampleEvents "g5" "Pass" = 5 := by decide
  have hcounts : gkPopulationCounts percentileExampleEvents "Pass" = [1, 2, 3, 4, 5] := by
    rw [gkPopulationCounts, hframe]
    norm_num
  refine ⟨fun h => ?_, fun h => ?_, hcounts, ?_⟩
  · unfold gkReportPercentile
    rw [if_neg h]
    refine percentileofscore_mean_eq_meanPercentileRank _ _ ?_
    simp only [gkPopulationCounts, ne_eq, List.map_eq_nil_iff]
    exact h
  · unfold defenderReportPercentile
    rw [if_neg h]
    refine percentileofscore_mean_eq_meanPercentileRank _ _ ?_
    simp only [defenderPopulationCounts, ne_eq, List.map_eq_nil_iff]
    exact h
  · unfold gkReportPercentile
    rw [if_neg (by rw [hframe]; exact fun hc => List.noConfusion hc), hcounts, hsel]
    norm_num [percentileofscore_mean, List.countP_cons, List.countP_nil]

/-- C1 witness: the tournament frame with goalkeeper populations
[1,2,3,4,5] (selected count 5) and a one-defender Duel population. -/
theorem report_percentile_is_mean_rank_witness :
    gkPopulationFrame percentileExampleEvents "Pass" ≠ [] ∧
    gkReportPercentile percentileExampleEvents "g5" "Pass" =
      meanPercentileRank (gkPopulationCounts percentileExampleEvents "Pass")
        ((gkSelectedCount percentileExampleEvents "g5" "Pass" : ℚ)) ∧
    defenderPopulationFrame percentileExampleEvents "Duel" ≠ [] ∧
    defenderReportPercentile percentileExampleEvents "d1" "Duel" =
      meanPercentileRank (defenderPopulationCounts percentileExampleEvents "Duel")
        ((defenderSelectedCount percentileExampleEvents "d1" "Duel" : ℚ)) :=
  ⟨by decide,
   (report_percentile_is_mean_rank percentileExampleEvents "g5" "Pass").1 (by decide),
   by decide,
   (report_percentile_is_mean_rank percentileExampleEvents "d1" "Duel").2.1 (by decide)⟩

theorem countP_mapPositions (f : Event → Option String) (p : Event → Bool)
    (hp : ∀ e, p { e with position := f e } = p e) (l : List Event) :
    (mapPositions f l).countP p = l.countP p := by
  unfold mapPositions
  rw [List.countP_map]
  exact List.countP_congr (fun a _ => by simp [Function.comp, hp a])

theorem gkSelectedCount_eq_countP (full : List Event) (name metric : String) :
    gkSelectedCount full name metric =
      full.countP (fun e => (e.type == metric) && (e.player == some name)) := by
  unfold gkSelectedCount gkSelectedEvents
  rw [List.filter_filter, ← List.countP_eq_length_filter]

theorem defenderSelectedCount_eq_countP (full : List Event) (name metric : String) :
    defenderSelectedCount full name metric =
      full.countP (fun e => (e.type == metric) && (e.player == some name)) := by
  unfold defenderSelectedCount defenderSelectedEvents
  rw [List.filter_filter, ← List.countP_eq_length_filter]

theorem forwardSelectedCount_eq_countP (full : List Event) (name metric : String) :
    forwardSelectedCount full name metric =
      if metric = "Goal" then
        full.countP (fun e =>
          (e.type == "Shot" && e.shot_outcome == some "Goal") && (e.player == some name))
      else full.countP (fun e => (e.type == metric) && (e.player == some name)) := by
  unfold forwardSelectedCount forwardSelectedEvents
  by_cases hm : metric = "Goal" <;>
    simp only [if_pos, if_neg, hm, if_true, if_false] <;>
    rw [List.filter_filter, ← List.countP_eq_length_filter]

/-- C9: the selected player's raw count reads only the player and type
(and, for the derived Goal metric, shot_outcome) columns — rewriting every
event's position arbitrarily leaves it unchanged in all three report
cards — while the reference population is position-filtered; on a frame
where "A" has Pass events in two positions, the selected count strictly
exceeds every count of the (non-empty) goalkeeper population. -/
theorem selected_count_ignores_position :
    (∀ (full : List Event) (name metric : String) (f : Event → Option String),
        gkSelectedCount (mapPositions f full) name metric =
          gkSelectedCount full name metric) ∧
    (∀ (full : List Event) (name metric : String) (f : Event → Option String),
        defenderSelectedCount (mapPositions f full) name metric =
          defenderSelectedCount full name metric) ∧
    (∀ (full : List Event) (name metric : String) (f : Event → Option String),
        forwardSelectedCount (mapPositions f full) name metric =
          forwardSelectedCount full name metric) ∧
    gkPopulationFrame crossPositionExample "Pass" ≠ [] ∧
    ((gkPopulationFrame crossPositionExample "Pass").map Prod.snd).all
      (fun c => decide (c < gkSelectedCount crossPositionExample "A" "Pass")) = true := by
  refine ⟨?_, ?_, ?_, by decide, by decide⟩
  · intro full name metric f
    rw [gkSelectedCount_eq_countP, gkSelectedCount_eq_countP]
    exact countP_mapPositions f
      (fun e => (e.type == metric) && (e.player == some name)) (fun e => rfl) full
  · intro full name metric f
    rw [defenderSelectedCount_eq_countP, defenderSelectedCount_eq_countP]
    exact countP_mapPositions f
      (fun e => (e.type == metric) && (e.player == some name)) (fun e => rfl) full
  · intro full name metric f
    rw [forwardSelectedCount_eq_countP, forwardSelectedCount_eq_countP]
    by_cases hm : metric = "Goal"
    · simp only [hm, if_true]
      exact countP_mapPositions f
        (fun e => (e.type == "Shot" && e.shot_outcome == some "Goal") && (e.player == some name))
        (fun e => rfl) full
    · simp only [hm, if_false]
      exact countP_mapPositions f
        (fun e => (e.type == metric) && (e.player == some name)) (fun e => rfl) full

theorem mem_firstOccAux (x : String) (l : List String) : ∀ seen,
    x ∈ firstOccAux seen l ↔ x ∈ l ∧ x ∉ seen := by
  induction l with
  | nil =>
    intro seen
    simp [firstOccAux]
  | cons a t ih =>
    intro seen
    simp only [firstOccAux]
    split
    · rename_i h
      rw [ih]
      constructor
      · rintro ⟨hx, hs⟩
        exact ⟨List.mem_cons_of_mem a hx, hs⟩
      · rintro ⟨hx, hs⟩
        rcases List.mem_cons.mp hx with rfl | hx
        · exact absurd h hs
        · exact ⟨hx, hs⟩
    · rename_i h
      rw [List.mem_cons, List.mem_cons, ih]
      constructor
      · rintro (rfl | ⟨hx, hs⟩)
        · exact ⟨Or.inl rfl, h⟩
        · refine ⟨Or.inr hx, fun hseen => hs ?_⟩
          exact List.mem_cons_of_mem a hseen
      · rintro ⟨rfl | hx, hs⟩
        · exact Or.inl rfl
        · by_cases hxa : x = a
          · exact Or.inl hxa
          · refine Or.inr ⟨hx, fun hc => ?_⟩
            rcases List.mem_cons.mp hc with hc | hc
            · exact hxa hc
            · exact hs hc

theorem mem_firstOcc (x : String) (l : List String) : x ∈ firstOcc l ↔ x ∈ l := by
  simp [firstOcc, mem_firstOccAux]

theorem involvementPairs_mem (events : List Event) (team : String) (pr : String × ℕ) :
    pr ∈ involvementPairs events team ↔
      pr.1 ∈ involvementSeries events team ∧
        pr.2 = involvementCount events team pr.1 := by
  unfold involvementPairs involvementCount
  rw [List.mem_insertionSort]
  constructor
  · intro hm
    obtain ⟨k, hk, hkeq⟩ := List.mem_map.mp hm
    cases hkeq
    exact ⟨(mem_firstOcc k _).mp hk, rfl⟩
  · rintro ⟨h1, h2⟩
    refine List.mem_map.mpr ⟨pr.1, (mem_firstOcc pr.1 _).mpr h1, ?_⟩
    obtain ⟨a, b⟩ := pr
    simpa using h2.symm

/-- C5 (amended): the starting eleven is a top-11 selection by involvement
count descending: every selected player's involvement count is at least
that of every involved player left out.  (The claim's further assertions —
an identifier-ascending tie-break and dependence on the count multiset
alone — do not hold of the source; see the counterexample.) -/
theorem starting_eleven_top_by_count (events : List Event) (team : String)
    (p q : String) (hp : p ∈ startingEleven events team)
    (hq : q ∈ involvementSeries events team)
    (hq2 : q ∉ startingEleven events team) :
    involvementCount events team q ≤ involvementCount events team p := by
  obtain ⟨pp, hppTake, hpp1⟩ := List.mem_map.mp hp
  have hppL : pp ∈ involvementPairs events team := List.mem_of_mem_take hppTake
  have hpp2 : pp.2 = involvementCount events team p := by
    have h2 := ((involvementPairs_mem events team pp).mp hppL).2
    rw [hpp1] at h2
    exact h2
  have hqqL : (q, involvementCount events team q) ∈ involvementPairs events team :=
    (involvementPairs_mem events team _).mpr ⟨hq, rfl⟩
  have hqqTake : (q, involvementCount events team q) ∉
      (involvementPairs events team).take 11 := by
    intro hc
    exact hq2 (List.mem_map.mpr ⟨_, hc, rfl⟩)
  have hqqSplit : (q, involvementCount events team q) ∈
      (involvementPairs events team).take 11 ++ (involvementPairs events team).drop 11 := by
    rw [List.take_append_drop]
    exact hqqL
  have hqqDrop : (q, involvementCount events team q) ∈
      (involvementPairs events team).drop 11 := by
    rcases List.mem_append.mp hqqSplit with h | h
    · exact absurd h hqqTake
    · exact h
  have hsorted : List.Pairwise countGe
      ((involvementPairs events team).take 11 ++ (involvementPairs events team).drop 11) := by
    rw [List.take_append_drop]
    exact List.sorted_insertionSort countGe _
  have hcross := (List.pairwise_append.mp hsorted).2.2 pp hppTake _ hqqDrop
  have hle : involvementCount events team q ≤ pp.2 := hcross
  rw [hpp2] at hle
  exact hle

/-- C5 witness: six passes involving twelve players once each; "p01" is
selected, "p12" is involved but left out, and the count bound holds. -/
theorem starting_eleven_top_by_count_witness :
    "p01" ∈ startingEleven startingElevenExample "T" ∧
    "p12" ∈ involvementSeries startingElevenExample "T" ∧
    "p12" ∉ startingEleven startingElevenExample "T" ∧
    involvementCount startingElevenExample "T" "p12" ≤
      involvementCount startingElevenExample "T" "p01" :=
  ⟨by decide, by decide, by decide,
   starting_eleven_top_by_count startingElevenExample "T" "p01" "p12"
     (by decide) (by decide) (by decide)⟩

/-- C5 counterexample: two inputs with identical involvement-count
multisets (a single completed pass each, counts [1, 1]) select different
player sets, so the selected set is not a function of the multiset of
involvement counts alone — refuting the claim as stated. -/
theorem starting_eleven_not_function_of_count_multiset :
    (involvementPairs singlePassAB "T").map Prod.snd =
      (involvementPairs singlePassCD "T").map Prod.snd ∧
    "A" ∈ startingEleven singlePassAB "T" ∧
    "A" ∉ startingEleven singlePassCD "T" := by
  refine ⟨by decide, by decide, by decide⟩
